import Mathlib

/-!
Verification of the ACENEXACBT token lifecycle and device-binding logic.

The definitions below are a shallow embedding of the token/auth code of the
repository:
* `verifyLocalToken`, `loginWithToken`, `saveLocalToken`, `updateLocalToken`,
  `resetTokenDevice`, `getAllTokens`, `generateSecureToken` are translated
  from src/services/auth.ts;
* `loginWithTokenRoute`, `generateTokenCode` are translated from the
  Express handlers in src/server.js;
* `loginWithTokenRouteV2` and `resetTokenDeviceRoute` are translated from
  the server variant in src/unnamed/part_002;
* `loginWithTokenV0` is translated from the client variant in
  src/unnamed/part_000.

Timestamps are modelled as natural numbers (milliseconds since the epoch);
the remote database and the local cache are modelled as lists of token
records; the outcome of a remote HTTP call, as seen by the client, is
modelled by the inductive `RemoteOutcome`.
-/

deriving instance DecidableEq for Except

namespace Acenexa

/-- Error taxonomy of the verification flows (spec section 7). Each
constructor corresponds to one throw site or error payload in the source:
`invalidCode` to "Invalid Access Token/Code", `deactivated` to
"deactivated", `bindingRequired` to the BINDING_REQUIRED control signal,
`deviceMismatch` to "locked to another device". `expired` is the error the
spec prescribes for expired tokens; no handler in the source produces it. -/
inductive VerifyError where
  | invalidCode
  | deactivated
  | bindingRequired
  | deviceMismatch
  | expired
  deriving Repr, DecidableEq

/-- The open metadata mapping carried by a token
(`TokenInfo.metadata` in src/services/auth.ts). -/
structure Metadata where
  payment_ref : Option String
  amount_paid : Option Nat
  exam_type : Option String
  full_name : Option String
  phone_number : Option String
  email : Option String
  generated_by : Option String
  deriving Repr, DecidableEq

/-- A token record (interface `TokenInfo` in src/services/auth.ts; the same
shape is stored in the `access_tokens` table read by src/server.js). -/
structure TokenInfo where
  id : String
  token_code : String
  is_active : Bool
  created_at : Nat
  device_fingerprint : Option String
  bound_at : Option Nat
  expires_at : Option Nat
  metadata : Metadata
  deriving Repr, DecidableEq

/-- An authenticated identity (interface `User` in src/services/auth.ts). -/
structure User where
  username : String
  role : String
  fullName : String
  regNumber : String
  isTokenLogin : Bool
  allowedExamType : String
  deriving Repr, DecidableEq

/-- JavaScript `a || d` on an optional string: the default replaces both a
missing value and an empty string (both are falsy in JavaScript). -/
def jsOr (s : Option String) (d : String) : String :=
  match s with
  | some v => if v = "" then d else v
  | none => d

/-- The FORCE_OFFLINE flag of src/services/config.ts (and the literal in
src/unnamed/part_000); false in the deployed configuration. -/
def FORCE_OFFLINE : Bool := false

/-- JavaScript `toUpperCase()` modelled character-wise over the string's
character list. -/
def strUpper (s : String) : String := String.mk (s.data.map Char.toUpper)

/-- Characters stripped by JavaScript `trim()`. -/
def jsWhitespace (c : Char) : Bool :=
  c == ' ' || c == '\t' || c == '\n' || c == '\r'

/-- JavaScript `trim()`: drop whitespace from both ends. -/
def strTrim (s : String) : String :=
  String.mk (((s.data.dropWhile jsWhitespace).reverse.dropWhile jsWhitespace).reverse)

/-- Lookup of `verifyLocalToken` (src/services/auth.ts line 147):
`localTokens.find(t => t.token_code.toUpperCase() === token.trim().toUpperCase())`. -/
def findLocalToken (tokens : List TokenInfo) (code : String) : Option TokenInfo :=
  tokens.find? (fun t => strUpper t.token_code == strUpper (strTrim code))

/-- `updateLocalToken` (src/services/auth.ts lines 109-113): maps every
cached token whose code equals `tokenCode` through the update. -/
def updateLocalToken (tokens : List TokenInfo) (tokenCode : String)
    (upd : TokenInfo → TokenInfo) : List TokenInfo :=
  tokens.map (fun t => if t.token_code == tokenCode then upd t else t)

/-- The partial update `\x7b device_fingerprint: fp \x7d` applied by the
binding and reset call sites of `updateLocalToken`. -/
def setFingerprint (fp : Option String) (t : TokenInfo) : TokenInfo :=
  { t with device_fingerprint := fp }

/-- `saveLocalToken` (src/services/auth.ts lines 103-107): drop any cached
token with the same code, then prepend the new record. -/
def saveLocalToken (tokens : List TokenInfo) (t : TokenInfo) : List TokenInfo :=
  t :: tokens.filter (fun x => x.token_code != t.token_code)

/-- The identity returned by `verifyLocalToken` on success
(src/services/auth.ts lines 158-166). -/
def mkOfflineUser (found : TokenInfo) : User :=
  { username := found.token_code
    role := "student"
    fullName := jsOr found.metadata.full_name "Candidate (Offline)"
    regNumber := found.token_code
    isTokenLogin := true
    allowedExamType := jsOr found.metadata.exam_type "BOTH" }

/-- `verifyLocalToken` (src/services/auth.ts lines 145-167). The function
returns the result together with the (possibly updated) local token store;
the store is mutated only by the confirmed-binding branch. -/
def verifyLocalToken (tokens : List TokenInfo) (token fp : String)
    (confirmBinding : Bool) : Except VerifyError User × List TokenInfo :=
  match findLocalToken tokens token with
  | none => (.error .invalidCode, tokens)
  | some found =>
    if found.is_active = false then (.error .deactivated, tokens)
    else
      match found.device_fingerprint with
      | none =>
        if confirmBinding = false then (.error .bindingRequired, tokens)
        else (.ok (mkOfflineUser found),
              updateLocalToken tokens found.token_code (setFingerprint (some fp)))
      | some dfp =>
        if dfp ≠ fp then (.error .deviceMismatch, tokens)
        else (.ok (mkOfflineUser found), tokens)

/-- One day in milliseconds (`1000 * 60 * 60 * 24` in src/server.js). -/
def msPerDay : Int := 1000 * 60 * 60 * 24

/-- Ceiling division on integers, the meaning of `Math.ceil(a / b)` for a
positive divisor. -/
def ceilDivInt (a b : Int) : Int := -((-a).ediv b)

/-- `getRemainingDays` (src/server.js lines 58-64): null for a lifetime
token, otherwise the ceiling of the remaining time in days (negative when
the expiry is already past). -/
def getRemainingDays (expiresAt : Option Nat) (now : Nat) : Option Int :=
  match expiresAt with
  | none => none
  | some e => some (ceilDivInt ((e : Int) - (now : Int)) msPerDay)

/-- The JSON body answered by the src/server.js login-with-token route on
success (lines 179-189; the locale-formatted `expiryMessage` string is not
modelled). -/
structure RemoteIdentity where
  username : String
  role : String
  fullName : String
  regNumber : String
  isTokenLogin : Bool
  allowedExamType : String
  remainingDays : Option Int
  expiresAt : Option Nat
  deriving Repr, DecidableEq

/-- Builds the success response of src/server.js from the row it read
(lines 179-189). -/
def mkRemoteIdentity (t : TokenInfo) (now : Nat) : RemoteIdentity :=
  { username := t.token_code
    role := "student"
    fullName := jsOr t.metadata.full_name "Student"
    regNumber := t.token_code
    isTokenLogin := true
    allowedExamType := jsOr t.metadata.exam_type "BOTH"
    remainingDays := getRemainingDays t.expires_at now
    expiresAt := t.expires_at }

/-- Outcome of the src/server.js login-with-token route: an error payload
with a non-success status, the `\x7brequires_binding: true\x7d` signal, or the
identity JSON. -/
inductive RemoteResponse where
  | err (e : VerifyError)
  | requiresBinding
  | ok (u : RemoteIdentity)
  deriving Repr, DecidableEq

/-- The `POST /api/auth/login-with-token` handler of src/server.js
(lines 151-195). Lookup is by exact token code; the confirmed-binding
branch updates only `device_fingerprint` on the row matched by id, and the
response is built from the row as originally read. The route never
consults `expires_at` except to report `remainingDays`. -/
def loginWithTokenRoute (db : List TokenInfo) (now : Nat) (token fp : String)
    (confirmBinding : Bool) : RemoteResponse × List TokenInfo :=
  match db.find? (fun t => t.token_code == token) with
  | none => (.err .invalidCode, db)
  | some tokenData =>
    if tokenData.is_active = false then (.err .deactivated, db)
    else
      match tokenData.device_fingerprint with
      | none =>
        if confirmBinding = false then (.requiresBinding, db)
        else
          (.ok (mkRemoteIdentity tokenData now),
           db.map (fun t => if t.id == tokenData.id
             then { t with device_fingerprint := some fp } else t))
      | some dfp =>
        if dfp ≠ fp then (.err .deviceMismatch, db)
        else (.ok (mkRemoteIdentity tokenData now), db)

/-- `setFullYear(getFullYear() + 1)` in src/unnamed/part_002, modelled as
adding a fixed 365-day year in milliseconds. -/
def addOneYear (t : Nat) : Nat := t + 365 * 24 * 60 * 60 * 1000

/-- The JSON body answered by the src/unnamed/part_002 login-with-token
route on success (lines 265-275; the locale-formatted `status_message`
string is not modelled). -/
structure BindResponse where
  token_code : String
  is_active : Bool
  bound : Bool
  bound_at : Option Nat
  expires_at : Option Nat
  remaining_days : Option Int
  exam_type : String
  deriving Repr, DecidableEq

/-- Builds the success response of src/unnamed/part_002 from the (possibly
just updated) row. -/
def mkBindResponse (t : TokenInfo) (now : Nat) : BindResponse :=
  { token_code := t.token_code
    is_active := t.is_active
    bound := t.device_fingerprint.isSome
    bound_at := t.bound_at
    expires_at := t.expires_at
    remaining_days := getRemainingDays t.expires_at now
    exam_type := jsOr t.metadata.exam_type "BOTH" }

/-- Outcome of the src/unnamed/part_002 login-with-token route. -/
inductive RemoteResponseV2 where
  | err (e : VerifyError)
  | requiresBinding
  | ok (r : BindResponse)
  deriving Repr, DecidableEq

/-- The `POST /api/auth/login-with-token` handler of src/unnamed/part_002
(lines 232-279). Unlike src/server.js, the confirmed-binding branch updates
`device_fingerprint`, `bound_at := now` and `expires_at := now + 1 year` on
the row matched by id, mirrors the three fields into the in-memory row, and
answers with the updated values. It still never rejects an expired token. -/
def loginWithTokenRouteV2 (db : List TokenInfo) (now : Nat) (token fp : String)
    (confirmBinding : Bool) : RemoteResponseV2 × List TokenInfo :=
  match db.find? (fun t => t.token_code == token) with
  | none => (.err .invalidCode, db)
  | some tokenData =>
    if tokenData.is_active = false then (.err .deactivated, db)
    else
      match tokenData.device_fingerprint with
      | none =>
        if confirmBinding = false then (.requiresBinding, db)
        else
          let expiresAt := addOneYear now
          let td := { tokenData with
                      device_fingerprint := some fp
                      bound_at := some now
                      expires_at := some expiresAt }
          (.ok (mkBindResponse td now),
           db.map (fun t => if t.id == tokenData.id
             then { t with
                    device_fingerprint := some fp
                    bound_at := some now
                    expires_at := some expiresAt }
             else t))
      | some dfp =>
        if dfp ≠ fp then (.err .deviceMismatch, db)
        else (.ok (mkBindResponse tokenData now), db)

/-- `resetTokenDevice` (src/services/auth.ts line 303), local-cache side:
`updateLocalToken(tokenCode, \x7b device_fingerprint: null \x7d)`. -/
def resetTokenDevice (tokens : List TokenInfo) (tokenCode : String) : List TokenInfo :=
  updateLocalToken tokens tokenCode (setFingerprint none)

/-- The `POST /api/admin/reset-token-device` handler of
src/unnamed/part_002 (lines 181-188): sets `device_fingerprint` to null on
every row with the given code, touching no other column. -/
def resetTokenDeviceRoute (db : List TokenInfo) (tokenCode : String) : List TokenInfo :=
  db.map (fun t => if t.token_code == tokenCode
    then { t with device_fingerprint := none } else t)

/-- The outcome of the remote call made by `loginWithToken`, as seen
through `apiRequest` (src/services/auth.ts lines 73-96): a transient
failure (offline, timeout, non-JSON response), an application-level error
payload rethrown as an Error, the `requires_binding` signal, or an
identity. -/
inductive RemoteOutcome where
  | success (u : User)
  | requiresBinding
  | appError (e : VerifyError)
  | transientFailure
  deriving Repr, DecidableEq

/-- The record upserted into the local cache after a successful online
login (src/services/auth.ts lines 186-193): active, bound to the current
fingerprint, provenance ONLINE_CACHE, and no `bound_at` or `expires_at`
field. -/
def onlineCacheEntry (nowTs : Nat) (token fp : String) (u : User) : TokenInfo :=
  { id := "cached-" ++ toString nowTs
    token_code := token
    is_active := true
    created_at := nowTs
    device_fingerprint := some fp
    bound_at := none
    expires_at := none
    metadata := { payment_ref := none, amount_paid := none
                  exam_type := some u.allowedExamType
                  full_name := some u.fullName
                  phone_number := none, email := none
                  generated_by := some "ONLINE_CACHE" } }

/-- `loginWithToken` (src/services/auth.ts lines 170-204), after the device
fingerprint has been resolved. On remote success the identity is returned
and mirrored into the cache; a remote BINDING_REQUIRED signal is rethrown
by the catch block (line 197); every other remote failure — application
errors and transient failures alike — falls through to `verifyLocalToken`. -/
def loginWithToken (remote : RemoteOutcome) (cache : List TokenInfo)
    (nowTs : Nat) (token fp : String) (confirmBinding : Bool) :
    Except VerifyError User × List TokenInfo :=
  if FORCE_OFFLINE then verifyLocalToken cache token fp confirmBinding else
  match remote with
  | .success u => (.ok u, saveLocalToken cache (onlineCacheEntry nowTs token fp u))
  | .requiresBinding => (.error .bindingRequired, cache)
  | .appError _ => verifyLocalToken cache token fp confirmBinding
  | .transientFailure => verifyLocalToken cache token fp confirmBinding

/-- `loginWithToken` of the src/unnamed/part_000 variant (lines 155-189):
its catch block swallows every remote failure, including the rethrown
BINDING_REQUIRED signal, and always falls back to the local verification
(the local logic is line-for-line that of src/services/auth.ts). -/
def loginWithTokenV0 (remote : RemoteOutcome) (cache : List TokenInfo)
    (nowTs : Nat) (token fp : String) (confirmBinding : Bool) :
    Except VerifyError User × List TokenInfo :=
  if FORCE_OFFLINE then verifyLocalToken cache token fp confirmBinding else
  match remote with
  | .success u => (.ok u, saveLocalToken cache (onlineCacheEntry nowTs token fp u))
  | _ => verifyLocalToken cache token fp confirmBinding

/-- The 32-symbol code alphabet shared by every generator in the source
(`ABCDEFGHJKLMNPQRSTUVWXYZ23456789`, excluding 0, O, 1 and I). -/
def tokenAlphabet : List Char := "ABCDEFGHJKLMNPQRSTUVWXYZ23456789".toList

/-- `generateSecureToken` (src/services/auth.ts lines 131-143). The twelve
values drawn from the random source are taken as input; each is reduced
modulo the alphabet size exactly as `values[i] % chars.length`. -/
def generateSecureToken (pfx : String) (values : List Nat) : String :=
  let chars := tokenAlphabet
  let result := (List.range 12).map
    (fun i => chars.getD ((values.getD i 0) % chars.length) 'A')
  pfx ++ "-" ++ String.mk (result.take 4) ++ "-"
      ++ String.mk ((result.drop 4).take 4) ++ "-" ++ String.mk (result.drop 8)

/-- `generateTokenCode` (src/server.js lines 47-56): the same computation
over twelve bytes from `crypto.randomBytes`. -/
def generateTokenCode (pfx : String) (randomBytes : List Nat) : String :=
  let chars := tokenAlphabet
  let result := (List.range 12).map
    (fun i => chars.getD ((randomBytes.getD i 0) % chars.length) 'A')
  pfx ++ "-" ++ String.mk (result.take 4) ++ "-"
      ++ String.mk ((result.drop 4).take 4) ++ "-" ++ String.mk (result.drop 8)

/-- The merge loop of `getAllTokens` (src/services/auth.ts lines 309-310):
start from the remote list and append each local token whose code is not
already present. -/
def addLocals (online locals : List TokenInfo) : List TokenInfo :=
  locals.foldl
    (fun acc l =>
      if (acc.find? (fun c => c.token_code == l.token_code)).isSome
      then acc else acc ++ [l])
    online

/-- The sort order of `getAllTokens` (src/services/auth.ts line 311):
`(a, b) => b.created_at - a.created_at`, newest first. -/
def createdDescOrder (a b : TokenInfo) : Prop := b.created_at ≤ a.created_at

instance : DecidableRel createdDescOrder :=
  fun a b => Nat.decLe b.created_at a.created_at

instance : IsTotal TokenInfo createdDescOrder :=
  ⟨fun a b => Nat.le_total b.created_at a.created_at⟩

instance : IsTrans TokenInfo createdDescOrder :=
  ⟨fun _ _ _ hab hbc => Nat.le_trans hbc hab⟩

/-- `getAllTokens` (src/services/auth.ts lines 305-312): merge the remote
list with the local cache, de-duplicating by code, then sort newest first. -/
def getAllTokens (online locals : List TokenInfo) : List TokenInfo :=
  List.insertionSort createdDescOrder (addLocals online locals)

/-- Metadata record with every optional field absent. -/
def emptyMetadata : Metadata :=
  { payment_ref := none, amount_paid := none, exam_type := none,
    full_name := none, phone_number := none, email := none,
    generated_by := none }

/-- Concrete token record builder used by the concrete evaluations below. -/
def mkTok (i code : String) (act : Bool) (ca : Nat) (fp : Option String)
    (ba ea : Option Nat) : TokenInfo :=
  { id := i, token_code := code, is_active := act, created_at := ca,
    device_fingerprint := fp, bound_at := ba, expires_at := ea,
    metadata := emptyMetadata }

/-- A deactivated token that is bound to device F1. -/
def cInactiveBound : TokenInfo := mkTok "c1" "T1" false 0 (some "F1") none none

/-- An active token bound to device F1. -/
def wBound : TokenInfo := mkTok "w1" "T1" true 0 (some "F1") none none

/-- An active token, unbound. -/
def wUnbound : TokenInfo := mkTok "w2" "T2" true 0 none none none

/-- An active, bound token whose expiry (100) is already in the past at
verification time 200. -/
def cExpiredToken : TokenInfo := mkTok "e1" "T3" true 0 (some "F1") (some 10) (some 100)

/-- An active token bound to F1 with a recorded bind time and expiry. -/
def cBoundAt : TokenInfo := mkTok "b1" "T4" true 0 (some "F1") (some 5) (some 777)

/-- A concrete identity, as returned by a successful remote login. -/
def uW : User :=
  { username := "T5", role := "student", fullName := "Ada",
    regNumber := "T5", isTokenLogin := true, allowedExamType := "JAMB" }

/-- A concrete remote token list: codes A and B, created at 10 and 5. -/
def c8online : List TokenInfo :=
  [mkTok "o1" "A" true 10 none none none, mkTok "o2" "B" false 5 (some "F1") none none]

/-- A concrete local cache: code B (shadowing the remote record, with
different fields) and code C, created at 30 and 20. -/
def c8locals : List TokenInfo :=
  [mkTok "l1" "B" true 30 none none none, mkTok "l2" "C" true 20 none none none]

/- ------------------------------------------------------------------ -/
/- Theorems                                                            -/
/- ------------------------------------------------------------------ -/

/-- Auxiliary: `find?` commutes with a `map` whose function does not
change the value of the search predicate. -/
theorem find?_map_of_pred_inv (p : TokenInfo → Bool) (f : TokenInfo → TokenInfo)
    (hp : ∀ x, p (f x) = p x) :
    ∀ l : List TokenInfo, (l.map f).find? p = (l.find? p).map f := by
  intro l
  induction l with
  | nil => rfl
  | cons a l ih =>
    by_cases h : p a = true
    · rw [List.map_cons, List.find?_cons_of_pos _ ((hp a).trans h),
        List.find?_cons_of_pos _ h]
      rfl
    · have hb : p a = false := by simpa using h
      rw [List.map_cons, List.find?_cons_of_neg _ (by simp [hp a, hb]),
        List.find?_cons_of_neg _ (by simp [hb]), ih]

/-- C4: a deactivated token never verifies. Both the offline
`verifyLocalToken` and the src/server.js login-with-token route answer
Deactivated for every supplied fingerprint, every confirmBinding value and
every binding/expiry state of the token, and leave the store untouched. -/
theorem C4_deactivated_dominates (ts db : List TokenInfo) (code fp : String)
    (cb : Bool) (now : Nat) (t r : TokenInfo)
    (hlt : findLocalToken ts code = some t) (hla : t.is_active = false)
    (hrt : db.find? (fun x => x.token_code == code) = some r)
    (hra : r.is_active = false) :
    verifyLocalToken ts code fp cb = (.error .deactivated, ts) ∧
    loginWithTokenRoute db now code fp cb = (.err .deactivated, db) := by
  constructor
  · unfold verifyLocalToken
    rw [hlt]
    simp [hla]
  · unfold loginWithTokenRoute
    rw [hrt]
    simp [hra]

/-- Witness for C4 at a concrete deactivated bound token. -/
theorem C4_witness :
    (findLocalToken [cInactiveBound] "T1" = some cInactiveBound ∧
     cInactiveBound.is_active = false ∧
     [cInactiveBound].find? (fun x => x.token_code == "T1") = some cInactiveBound) ∧
    (verifyLocalToken [cInactiveBound] "T1" "F9" true
        = (.error .deactivated, [cInactiveBound]) ∧
     loginWithTokenRoute [cInactiveBound] 7 "T1" "F9" true
        = (.err .deactivated, [cInactiveBound])) :=
  ⟨⟨by decide, rfl, by decide⟩,
    C4_deactivated_dominates [cInactiveBound] [cInactiveBound] "T1" "F9" true 7
      cInactiveBound cInactiveBound (by decide) rfl (by decide) rfl⟩

/-- C1 (amended): for every active token bound to fingerprint f, a
verification from a different fingerprint g is denied with DeviceMismatch,
with the token store left unchanged, for every confirmBinding value — in
the offline path and in the src/server.js route alike. -/
theorem C1_bound_mismatch_denied (ts db : List TokenInfo) (code f g : String)
    (cb : Bool) (now : Nat) (t r : TokenInfo)
    (hlt : findLocalToken ts code = some t) (hla : t.is_active = true)
    (hlf : t.device_fingerprint = some f)
    (hrt : db.find? (fun x => x.token_code == code) = some r)
    (hra : r.is_active = true) (hrf : r.device_fingerprint = some f)
    (hne : g ≠ f) :
    verifyLocalToken ts code g cb = (.error .deviceMismatch, ts) ∧
    loginWithTokenRoute db now code g cb = (.err .deviceMismatch, db) := by
  constructor
  · unfold verifyLocalToken
    rw [hlt]
    simp [hla, hlf, hne.symm]
  · unfold loginWithTokenRoute
    rw [hrt]
    simp [hra, hrf, hne.symm]

/-- Witness for C1 at a concrete active token bound to F1, queried from F2. -/
theorem C1_witness :
    (findLocalToken [wBound] "T1" = some wBound ∧ wBound.is_active = true ∧
     wBound.device_fingerprint = some "F1" ∧
     [wBound].find? (fun x => x.token_code == "T1") = some wBound ∧
     ("F2" : String) ≠ "F1") ∧
    (verifyLocalToken [wBound] "T1" "F2" true
        = (.error .deviceMismatch, [wBound]) ∧
     loginWithTokenRoute [wBound] 3 "T1" "F2" true
        = (.err .deviceMismatch, [wBound])) :=
  ⟨⟨by decide, rfl, rfl, by decide, by decide⟩,
    C1_bound_mismatch_denied [wBound] [wBound] "T1" "F1" "F2" true 3 wBound wBound
      (by decide) rfl rfl (by decide) rfl rfl (by decide)⟩

/-- C1 counterexample: the claim quantifies over every token whose
fingerprint is set, but a deactivated bound token queried from the wrong
device is denied with Deactivated, not DeviceMismatch (the activity check
runs first), so the claim as stated is false. -/
theorem C1_counterexample :
    cInactiveBound.device_fingerprint = some "F1" ∧ ("F2" : String) ≠ "F1" ∧
    (verifyLocalToken [cInactiveBound] "T1" "F2" true).1
        = .error .deactivated ∧
    (loginWithTokenRoute [cInactiveBound] 7 "T1" "F2" true).1
        = .err .deactivated ∧
    (Except.error VerifyError.deactivated : Except VerifyError User)
        ≠ .error .deviceMismatch := by
  refine ⟨rfl, by decide, by decide, by decide, by decide⟩

/-- Auxiliary: a guarded record update that preserves token codes does not
change which element a code-based `find?` locates; the located element is
the updated one. -/
theorem find?_guarded_update (p q : TokenInfo → Bool) (upd : TokenInfo → TokenInfo)
    (hcode : ∀ x, (upd x).token_code = x.token_code)
    (hpc : ∀ x y, x.token_code = y.token_code → p x = p y)
    (l : List TokenInfo) (r : TokenInfo)
    (hf : l.find? p = some r) (hq : q r = true) :
    (l.map (fun x => if q x then upd x else x)).find? p = some (upd r) := by
  have hp : ∀ x, p (if q x then upd x else x) = p x := by
    intro x
    by_cases hx : q x = true
    · simp only [hx, if_true]
      exact hpc _ _ (hcode x)
    · simp [hx]
  rw [find?_map_of_pred_inv p _ hp, hf]
  simp [hq]

/-- C2: binding protocol for an unbound active token, in the offline path
(src/services/auth.ts verifyLocalToken) and in the src/server.js route.
With confirmBinding=false the BindingRequired signal is returned and the
store is untouched; with confirmBinding=true the token's fingerprint is set
to the supplied one and the call succeeds; afterwards every call with the
same fingerprint succeeds and performs no further mutation. -/
theorem C2_binding_protocol (ts db : List TokenInfo) (code fp : String)
    (now now2 : Nat) (t r : TokenInfo)
    (hlt : findLocalToken ts code = some t) (hla : t.is_active = true)
    (hlf : t.device_fingerprint = none)
    (hrt : db.find? (fun x => x.token_code == code) = some r)
    (hra : r.is_active = true) (hrf : r.device_fingerprint = none) :
    (verifyLocalToken ts code fp false = (.error .bindingRequired, ts) ∧
     verifyLocalToken ts code fp true =
       (.ok (mkOfflineUser t),
        updateLocalToken ts t.token_code (setFingerprint (some fp))) ∧
     (∀ cb : Bool,
       verifyLocalToken (updateLocalToken ts t.token_code (setFingerprint (some fp)))
           code fp cb =
         (.ok (mkOfflineUser (setFingerprint (some fp) t)),
          updateLocalToken ts t.token_code (setFingerprint (some fp))))) ∧
    (loginWithTokenRoute db now code fp false = (.requiresBinding, db) ∧
     loginWithTokenRoute db now code fp true =
       (.ok (mkRemoteIdentity r now),
        db.map (fun x => if x.id == r.id
          then { x with device_fingerprint := some fp } else x)) ∧
     (∀ cb : Bool,
       loginWithTokenRoute
           (db.map (fun x => if x.id == r.id
             then { x with device_fingerprint := some fp } else x))
           now2 code fp cb =
         (.ok (mkRemoteIdentity (setFingerprint (some fp) r) now2),
          db.map (fun x => if x.id == r.id
            then { x with device_fingerprint := some fp } else x)))) := by
  have hlt' : List.find? (fun x => strUpper x.token_code == strUpper (strTrim code)) ts
      = some t := hlt
  refine ⟨⟨?_, ?_, ?_⟩, ?_, ?_, ?_⟩
  · unfold verifyLocalToken
    rw [hlt]
    simp [hla, hlf]
  · unfold verifyLocalToken
    rw [hlt]
    simp [hla, hlf]
  · intro cb
    have hfind : findLocalToken
        (updateLocalToken ts t.token_code (setFingerprint (some fp))) code =
        some (setFingerprint (some fp) t) := by
      unfold findLocalToken updateLocalToken
      exact find?_guarded_update
        (fun x => strUpper x.token_code == strUpper (strTrim code))
        (fun x => x.token_code == t.token_code)
        (setFingerprint (some fp)) (fun x => rfl)
        (fun x y h => by simp only [h]) ts t hlt' (by simp)
    unfold verifyLocalToken
    rw [hfind]
    simp [setFingerprint, hla]
  · unfold loginWithTokenRoute
    rw [hrt]
    simp [hra, hrf]
  · unfold loginWithTokenRoute
    rw [hrt]
    simp [hra, hrf]
  · intro cb
    have hfind : (db.map (fun x => if x.id == r.id
        then { x with device_fingerprint := some fp } else x)).find?
          (fun x => x.token_code == code) = some (setFingerprint (some fp) r) := by
      exact find?_guarded_update _ _ (setFingerprint (some fp)) (fun x => rfl)
        (fun x y h => by simp only [h]) db r hrt (by simp)
    unfold loginWithTokenRoute
    rw [hfind]
    simp [setFingerprint, hra]

/-- Witness for C2 at a concrete unbound active token. -/
theorem C2_witness :
    (findLocalToken [wUnbound] "T2" = some wUnbound ∧
     wUnbound.is_active = true ∧ wUnbound.device_fingerprint = none ∧
     [wUnbound].find? (fun x => x.token_code == "T2") = some wUnbound) ∧
    ((verifyLocalToken [wUnbound] "T2" "F1" false
        = (.error .bindingRequired, [wUnbound]) ∧
      verifyLocalToken [wUnbound] "T2" "F1" true =
        (.ok (mkOfflineUser wUnbound),
         updateLocalToken [wUnbound] wUnbound.token_code (setFingerprint (some "F1"))) ∧
      (∀ cb : Bool,
        verifyLocalToken
            (updateLocalToken [wUnbound] wUnbound.token_code (setFingerprint (some "F1")))
            "T2" "F1" cb =
          (.ok (mkOfflineUser (setFingerprint (some "F1") wUnbound)),
           updateLocalToken [wUnbound] wUnbound.token_code (setFingerprint (some "F1"))))) ∧
     (loginWithTokenRoute [wUnbound] 11 "T2" "F1" false
        = (.requiresBinding, [wUnbound]) ∧
      loginWithTokenRoute [wUnbound] 11 "T2" "F1" true =
        (.ok (mkRemoteIdentity wUnbound 11),
         [wUnbound].map (fun x => if x.id == wUnbound.id
           then { x with device_fingerprint := some "F1" } else x)) ∧
      (∀ cb : Bool,
        loginWithTokenRoute
            ([wUnbound].map (fun x => if x.id == wUnbound.id
              then { x with device_fingerprint := some "F1" } else x))
            12 "T2" "F1" cb =
          (.ok (mkRemoteIdentity (setFingerprint (some "F1") wUnbound) 12),
           [wUnbound].map (fun x => if x.id == wUnbound.id
             then { x with device_fingerprint := some "F1" } else x))))) :=
  ⟨⟨by decide, rfl, rfl, by decide⟩,
    C2_binding_protocol [wUnbound] [wUnbound] "T2" "F1" 11 12 wUnbound wUnbound
      (by decide) rfl rfl (by decide) rfl rfl⟩

/-- C5 (amended): in the src/unnamed/part_002 route, confirming the binding
of an unbound active token sets all three fields — deviceFingerprint,
boundAt = now and expiresAt = one year after now — in one update; the
src/server.js route instead sets only deviceFingerprint. -/
theorem C5_bind_fields (db db2 : List TokenInfo) (now : Nat) (code fp : String)
    (r q : TokenInfo)
    (hrt : db.find? (fun x => x.token_code == code) = some r)
    (hra : r.is_active = true) (hrf : r.device_fingerprint = none)
    (h2t : db2.find? (fun x => x.token_code == code) = some q)
    (h2a : q.is_active = true) (h2f : q.device_fingerprint = none) :
    loginWithTokenRouteV2 db2 now code fp true =
      (.ok (mkBindResponse { q with device_fingerprint := some fp, bound_at := some now, expires_at := some (addOneYear now) } now),
       db2.map (fun x => if x.id == q.id
         then { x with device_fingerprint := some fp, bound_at := some now, expires_at := some (addOneYear now) }
         else x)) ∧
    loginWithTokenRoute db now code fp true =
      (.ok (mkRemoteIdentity r now),
       db.map (fun x => if x.id == r.id
         then { x with device_fingerprint := some fp } else x)) := by
  constructor
  · unfold loginWithTokenRouteV2
    rw [h2t]
    simp [h2a, h2f]
  · unfold loginWithTokenRoute
    rw [hrt]
    simp [hra, hrf]

/-- Witness for C5 at a concrete unbound active token. -/
theorem C5_witness :
    ([wUnbound].find? (fun x => x.token_code == "T2") = some wUnbound ∧
     wUnbound.is_active = true ∧ wUnbound.device_fingerprint = none) ∧
    (loginWithTokenRouteV2 [wUnbound] 42 "T2" "F1" true =
      (.ok (mkBindResponse { wUnbound with device_fingerprint := some "F1", bound_at := some 42, expires_at := some (addOneYear 42) } 42),
       [wUnbound].map (fun x => if x.id == wUnbound.id
         then { x with device_fingerprint := some "F1", bound_at := some 42, expires_at := some (addOneYear 42) }
         else x)) ∧
     loginWithTokenRoute [wUnbound] 42 "T2" "F1" true =
      (.ok (mkRemoteIdentity wUnbound 42),
       [wUnbound].map (fun x => if x.id == wUnbound.id
         then { x with device_fingerprint := some "F1" } else x))) :=
  ⟨⟨by decide, rfl, rfl⟩,
    C5_bind_fields [wUnbound] [wUnbound] 42 "T2" "F1" wUnbound wUnbound
      (by decide) rfl rfl (by decide) rfl rfl⟩

/-- C5 counterexample: binding through the src/server.js route (cited by
the claim as an authoritative remote path) leaves boundAt and expiresAt
untouched — here still none after binding at time 500 — so the claim that
the remote bind atomically sets all three fields is false for that route. -/
theorem C5_counterexample :
    wUnbound.bound_at = none ∧ wUnbound.expires_at = none ∧
    (loginWithTokenRoute [wUnbound] 500 "T2" "F1" true).2 =
      [{ wUnbound with device_fingerprint := some "F1" }] ∧
    ({ wUnbound with device_fingerprint := some "F1" } : TokenInfo).bound_at = none ∧
    ({ wUnbound with device_fingerprint := some "F1" } : TokenInfo).expires_at = none ∧
    (none : Option Nat) ≠ some 500 := by
  refine ⟨rfl, rfl, by decide, rfl, rfl, by decide⟩

/-- C6 (amended): in src/services/auth.ts loginWithToken, the remote
BindingRequired signal is the only remote failure that propagates to the
caller un-swallowed; every other remote failure — the permanent
application errors DeviceMismatch, Deactivated, Expired and InvalidCode as
much as transient transport failures — silently falls back to the local
verification of the cache. -/
theorem C6_fallback_policy (cache : List TokenInfo) (ts0 : Nat)
    (token fp : String) (cb : Bool) :
    loginWithToken RemoteOutcome.requiresBinding cache ts0 token fp cb
        = (.error .bindingRequired, cache) ∧
    (∀ e : VerifyError,
      loginWithToken (RemoteOutcome.appError e) cache ts0 token fp cb
        = verifyLocalToken cache token fp cb) ∧
    loginWithToken RemoteOutcome.transientFailure cache ts0 token fp cb
        = verifyLocalToken cache token fp cb := by
  refine ⟨rfl, fun e => rfl, rfl⟩

/-- C6 counterexample: a permanent remote DeviceMismatch error does not
propagate: it is swallowed and retried against the local cache, where an
active token bound to this device verifies successfully. In the
src/unnamed/part_000 variant even the remote BindingRequired signal is
swallowed (here surfacing as the local InvalidCode error on an empty
cache). -/
theorem C6_counterexample :
    (loginWithToken (RemoteOutcome.appError VerifyError.deviceMismatch)
        [wBound] 0 "T1" "F1" false).1 = .ok (mkOfflineUser wBound) ∧
    (Except.ok (mkOfflineUser wBound) : Except VerifyError User)
        ≠ .error .deviceMismatch ∧
    (loginWithTokenV0 RemoteOutcome.requiresBinding [] 0 "T9" "F1" false).1
        = .error .invalidCode ∧
    (Except.error VerifyError.invalidCode : Except VerifyError User)
        ≠ .error .bindingRequired := by
  refine ⟨by decide, by decide, by decide, by decide⟩

/-- C7 (amended): ResetDevice clears deviceFingerprint only: boundAt (and
expiresAt) are left unchanged, both in the local cache update of
src/services/auth.ts resetTokenDevice and in the src/unnamed/part_002
admin route; afterwards a new device can bind the token with
confirmBinding=true. -/
theorem C7_reset_clears_fingerprint_only (ts db : List TokenInfo)
    (code : String) (t r : TokenInfo)
    (hlt : findLocalToken ts code = some t) (hla : t.is_active = true)
    (hrt : db.find? (fun x => x.token_code == code) = some r) :
    (findLocalToken (resetTokenDevice ts t.token_code) code
        = some (setFingerprint none t) ∧
     (setFingerprint none t).device_fingerprint = none ∧
     (setFingerprint none t).bound_at = t.bound_at ∧
     (setFingerprint none t).expires_at = t.expires_at ∧
     (∀ fp2 : String,
       verifyLocalToken (resetTokenDevice ts t.token_code) code fp2 true =
         (.ok (mkOfflineUser (setFingerprint none t)),
          updateLocalToken (resetTokenDevice ts t.token_code)
            (setFingerprint none t).token_code (setFingerprint (some fp2))))) ∧
    ((resetTokenDeviceRoute db code).find? (fun x => x.token_code == code)
        = some ({ r with device_fingerprint := none }) ∧
     ({ r with device_fingerprint := none } : TokenInfo).bound_at = r.bound_at ∧
     ({ r with device_fingerprint := none } : TokenInfo).expires_at = r.expires_at) := by
  have hlt' : List.find? (fun x => strUpper x.token_code == strUpper (strTrim code)) ts
      = some t := hlt
  have hfind : findLocalToken (resetTokenDevice ts t.token_code) code
      = some (setFingerprint none t) := by
    unfold findLocalToken resetTokenDevice updateLocalToken
    exact find?_guarded_update
      (fun x => strUpper x.token_code == strUpper (strTrim code))
      (fun x => x.token_code == t.token_code)
      (setFingerprint none) (fun x => rfl)
      (fun x y h => by simp only [h]) ts t hlt' (by simp)
  refine ⟨⟨hfind, rfl, rfl, rfl, ?_⟩, ?_, rfl, rfl⟩
  · intro fp2
    unfold verifyLocalToken
    rw [hfind]
    simp [setFingerprint, hla]
  · unfold resetTokenDeviceRoute
    have hq := List.find?_some hrt
    exact find?_guarded_update (fun x => x.token_code == code)
      (fun x => x.token_code == code)
      (fun x => { x with device_fingerprint := none })
      (fun x => rfl) (fun x y h => by simp only [h]) db r hrt hq

/-- Witness for C7 at a concrete bound token carrying bind and expiry
timestamps. -/
theorem C7_witness :
    (findLocalToken [cBoundAt] "T4" = some cBoundAt ∧ cBoundAt.is_active = true ∧
     [cBoundAt].find? (fun x => x.token_code == "T4") = some cBoundAt) ∧
    ((findLocalToken (resetTokenDevice [cBoundAt] cBoundAt.token_code) "T4"
        = some (setFingerprint none cBoundAt) ∧
      (setFingerprint none cBoundAt).device_fingerprint = none ∧
      (setFingerprint none cBoundAt).bound_at = cBoundAt.bound_at ∧
      (setFingerprint none cBoundAt).expires_at = cBoundAt.expires_at ∧
      (∀ fp2 : String,
        verifyLocalToken (resetTokenDevice [cBoundAt] cBoundAt.token_code) "T4" fp2 true =
          (.ok (mkOfflineUser (setFingerprint none cBoundAt)),
           updateLocalToken (resetTokenDevice [cBoundAt] cBoundAt.token_code)
             (setFingerprint none cBoundAt).token_code (setFingerprint (some fp2))))) ∧
     ((resetTokenDeviceRoute [cBoundAt] "T4").find? (fun x => x.token_code == "T4")
        = some ({ cBoundAt with device_fingerprint := none }) ∧
      ({ cBoundAt with device_fingerprint := none } : TokenInfo).bound_at = cBoundAt.bound_at ∧
      ({ cBoundAt with device_fingerprint := none } : TokenInfo).expires_at = cBoundAt.expires_at)) :=
  ⟨⟨by decide, rfl, by decide⟩,
    C7_reset_clears_fingerprint_only [cBoundAt] [cBoundAt] "T4" cBoundAt cBoundAt
      (by decide) rfl (by decide)⟩

/-- C7 counterexample: the claim says ResetDevice clears boundAt as well;
after resetting a token whose boundAt is 5, boundAt is still 5 in the
local cache and through the src/unnamed/part_002 admin route. -/
theorem C7_counterexample :
    cBoundAt.bound_at = some 5 ∧
    resetTokenDevice [cBoundAt] "T4" = [setFingerprint none cBoundAt] ∧
    (setFingerprint none cBoundAt).bound_at = some 5 ∧
    resetTokenDeviceRoute [cBoundAt] "T4"
      = [{ cBoundAt with device_fingerprint := none }] ∧
    ({ cBoundAt with device_fingerprint := none } : TokenInfo).bound_at = some 5 ∧
    some 5 ≠ (none : Option Nat) := by
  refine ⟨rfl, by decide, rfl, by decide, rfl, by decide⟩

/-- C3: the code has no expiry check. An active, bound token whose
`expires_at` (100) is strictly in the past at verification time (200) is
accepted — by the src/server.js route, by the src/unnamed/part_002 route
and by the offline `verifyLocalToken` — instead of failing with Expired as
the spec requires. -/
theorem C3_expired_token_accepted :
    cExpiredToken.is_active = true ∧ cExpiredToken.expires_at = some 100 ∧
    (100 < 200) ∧ cExpiredToken.device_fingerprint = some "F1" ∧
    (loginWithTokenRoute [cExpiredToken] 200 "T3" "F1" false).1
        = .ok (mkRemoteIdentity cExpiredToken 200) ∧
    (loginWithTokenRouteV2 [cExpiredToken] 200 "T3" "F1" false).1
        = .ok (mkBindResponse cExpiredToken 200) ∧
    (verifyLocalToken [cExpiredToken] "T3" "F1" false).1
        = .ok (mkOfflineUser cExpiredToken) := by
  refine ⟨rfl, rfl, by decide, rfl, by decide, by decide, by decide⟩

/-- C10: after a successful online loginWithToken, the entry upserted into
the local cache is active, bound to the current device fingerprint,
carries provenance ONLINE_CACHE and no expiry field; consequently a later
offline verifyLocalToken with the same code and fingerprint succeeds
without mutation — independently of any later remote state, since the
offline path never consults the remote authority and never checks expiry. -/
theorem C10_online_cache_offline_success (cache : List TokenInfo)
    (nowTs : Nat) (token fp : String) (u : User) (cb cb2 : Bool)
    (htrim : strTrim token = token) :
    loginWithToken (RemoteOutcome.success u) cache nowTs token fp cb
      = (.ok u, saveLocalToken cache (onlineCacheEntry nowTs token fp u)) ∧
    (onlineCacheEntry nowTs token fp u).is_active = true ∧
    (onlineCacheEntry nowTs token fp u).device_fingerprint = some fp ∧
    (onlineCacheEntry nowTs token fp u).expires_at = none ∧
    (onlineCacheEntry nowTs token fp u).metadata.generated_by = some "ONLINE_CACHE" ∧
    verifyLocalToken (saveLocalToken cache (onlineCacheEntry nowTs token fp u))
        token fp cb2
      = (.ok (mkOfflineUser (onlineCacheEntry nowTs token fp u)),
         saveLocalToken cache (onlineCacheEntry nowTs token fp u)) := by
  refine ⟨rfl, rfl, rfl, rfl, rfl, ?_⟩
  have hfind : findLocalToken
      (saveLocalToken cache (onlineCacheEntry nowTs token fp u)) token
      = some (onlineCacheEntry nowTs token fp u) := by
    unfold findLocalToken saveLocalToken
    apply List.find?_cons_of_pos
    show (strUpper (onlineCacheEntry nowTs token fp u).token_code
        == strUpper (strTrim token)) = true
    rw [htrim]
    exact beq_self_eq_true _
  unfold verifyLocalToken
  rw [hfind]
  simp [onlineCacheEntry]

/-- Witness for C10 at a concrete remote identity and an empty cache. -/
theorem C10_witness :
    strTrim "T5" = "T5" ∧
    (loginWithToken (RemoteOutcome.success uW) [] 33 "T5" "F1" false
       = (.ok uW, saveLocalToken [] (onlineCacheEntry 33 "T5" "F1" uW)) ∧
     (onlineCacheEntry 33 "T5" "F1" uW).is_active = true ∧
     (onlineCacheEntry 33 "T5" "F1" uW).device_fingerprint = some "F1" ∧
     (onlineCacheEntry 33 "T5" "F1" uW).expires_at = none ∧
     (onlineCacheEntry 33 "T5" "F1" uW).metadata.generated_by = some "ONLINE_CACHE" ∧
     verifyLocalToken (saveLocalToken [] (onlineCacheEntry 33 "T5" "F1" uW))
         "T5" "F1" true
       = (.ok (mkOfflineUser (onlineCacheEntry 33 "T5" "F1" uW)),
          saveLocalToken [] (onlineCacheEntry 33 "T5" "F1" uW))) :=
  ⟨by decide,
    C10_online_cache_offline_success [] 33 "T5" "F1" uW false true (by decide)⟩

/-- C9: every code produced by generateSecureToken (src/services/auth.ts)
and generateTokenCode (src/server.js) has the shape
PREFIX-XXXX-XXXX-XXXX: the prefix followed by three hyphen-separated
groups of exactly four characters, every character drawn from the
32-symbol alphabet ABCDEFGHJKLMNPQRSTUVWXYZ23456789 — for every possible
output of the random source. -/
theorem C9_token_code_format (pfx : String) (values bytes : List Nat) :
    (∃ a b c : List Char,
      generateSecureToken pfx values
        = pfx ++ "-" ++ String.mk a ++ "-" ++ String.mk b ++ "-" ++ String.mk c ∧
      a.length = 4 ∧ b.length = 4 ∧ c.length = 4 ∧
      ∀ ch ∈ a ++ b ++ c, ch ∈ tokenAlphabet) ∧
    (∃ a b c : List Char,
      generateTokenCode pfx bytes
        = pfx ++ "-" ++ String.mk a ++ "-" ++ String.mk b ++ "-" ++ String.mk c ∧
      a.length = 4 ∧ b.length = 4 ∧ c.length = 4 ∧
      ∀ ch ∈ a ++ b ++ c, ch ∈ tokenAlphabet) := by

  have hbound : ∀ m, m < 32 → tokenAlphabet.getD m 'A' ∈ tokenAlphabet := by decide
  have hlen : tokenAlphabet.length = 32 := by decide
  have core : ∀ vals : List Nat,
      ∀ ch ∈ (List.range 12).map
        (fun i => tokenAlphabet.getD ((vals.getD i 0) % tokenAlphabet.length) 'A'),
      ch ∈ tokenAlphabet := by
    intro vals ch hch
    rw [List.mem_map] at hch
    obtain ⟨i, _, hch⟩ := hch
    rw [← hch]
    exact hbound _ (by rw [← hlen]; exact Nat.mod_lt _ (by rw [hlen]; exact Nat.succ_pos 31))
  constructor
  · refine ⟨_, _, _, rfl, ?_, ?_, ?_, ?_⟩
    · simp
    · simp
    · simp
    · intro ch hch
      rcases List.mem_append.mp hch with h | h
      · rcases List.mem_append.mp h with h2 | h2
        · exact core values ch (List.mem_of_mem_take h2)
        · exact core values ch (List.mem_of_mem_drop (List.mem_of_mem_take h2))
      · exact core values ch (List.mem_of_mem_drop h)
  · refine ⟨_, _, _, rfl, ?_, ?_, ?_, ?_⟩
    · simp
    · simp
    · simp
    · intro ch hch
      rcases List.mem_append.mp hch with h | h
      · rcases List.mem_append.mp h with h2 | h2
        · exact core bytes ch (List.mem_of_mem_take h2)
        · exact core bytes ch (List.mem_of_mem_drop (List.mem_of_mem_take h2))
      · exact core bytes ch (List.mem_of_mem_drop h)

/-- Auxiliary: the merge loop of getAllTokens preserves distinctness of
token codes — a local token is appended only when its code is absent from
the accumulated list. -/
theorem nodup_codes_addLocals (locals : List TokenInfo) :
    ∀ acc : List TokenInfo, (acc.map TokenInfo.token_code).Nodup →
      ((addLocals acc locals).map TokenInfo.token_code).Nodup := by
  induction locals with
  | nil => intro acc h; exact h
  | cons l ls ih =>
    intro acc h
    have heq : addLocals acc (l :: ls)
        = addLocals (if (acc.find? (fun c => c.token_code == l.token_code)).isSome
            then acc else acc ++ [l]) ls := rfl
    rw [heq]
    by_cases hc : (acc.find? (fun c => c.token_code == l.token_code)).isSome = true
    · rw [if_pos hc]
      exact ih acc h
    · rw [if_neg hc]
      apply ih
      have hnone : acc.find? (fun c => c.token_code == l.token_code) = none := by
        rcases ho : acc.find? (fun c => c.token_code == l.token_code) with _ | v
        · exact ho
        · exact absurd (by rw [ho]; rfl) hc
      have hnotin : l.token_code ∉ acc.map TokenInfo.token_code := by
        intro hmem
        rcases List.mem_map.mp hmem with ⟨x, hx, hxc⟩
        have := List.find?_eq_none.mp hnone x hx
        simp [hxc] at this
      simp only [List.map_append, List.map_cons, List.map_nil]
      rw [List.nodup_append]
      exact ⟨h, List.nodup_singleton _, by
        intro a ha hb
        rcases List.mem_singleton.mp hb with rfl
        exact hnotin ha⟩

/-- Auxiliary: the merge loop of getAllTokens never drops an element of
the accumulated list; in particular every remote token survives the merge. -/
theorem mem_addLocals_of_mem (locals : List TokenInfo) :
    ∀ acc : List TokenInfo, ∀ x ∈ acc, x ∈ addLocals acc locals := by
  induction locals with
  | nil => intro acc x hx; exact hx
  | cons l ls ih =>
    intro acc x hx
    have heq : addLocals acc (l :: ls)
        = addLocals (if (acc.find? (fun c => c.token_code == l.token_code)).isSome
            then acc else acc ++ [l]) ls := rfl
    rw [heq]
    by_cases hc : (acc.find? (fun c => c.token_code == l.token_code)).isSome = true
    · rw [if_pos hc]
      exact ih acc x hx
    · rw [if_neg hc]
      exact ih _ x (List.mem_append_left _ hx)

/-- C8: merge semantics of getAllTokens. Provided the remote list carries
pairwise distinct codes (the spec's uniqueness invariant for an
authority), the merged list has no two entries with the same code; every
remote record appears in the result and is the only entry with its code
(so for a code present both remotely and locally, the remote record is the
one returned); and the result is sorted by created_at descending. -/
theorem C8_getAllTokens_merge (online locals : List TokenInfo)
    (hnodup : (online.map TokenInfo.token_code).Nodup) :
    ((getAllTokens online locals).map TokenInfo.token_code).Nodup ∧
    (∀ r ∈ online, r ∈ getAllTokens online locals ∧
      ∀ x ∈ getAllTokens online locals, x.token_code = r.token_code → x = r) ∧
    List.Sorted createdDescOrder (getAllTokens online locals) := by
  have hperm : List.Perm
      (List.insertionSort createdDescOrder (addLocals online locals))
      (addLocals online locals) := List.perm_insertionSort _ _
  have hA : ((addLocals online locals).map TokenInfo.token_code).Nodup :=
    nodup_codes_addLocals locals online hnodup
  have hnodupRes : ((getAllTokens online locals).map TokenInfo.token_code).Nodup := by
    unfold getAllTokens
    exact ((hperm.map TokenInfo.token_code).nodup_iff).mpr hA
  refine ⟨hnodupRes, ?_, ?_⟩
  · intro r hr
    have hrA : r ∈ addLocals online locals := mem_addLocals_of_mem locals online r hr
    have hrRes : r ∈ getAllTokens online locals := by
      unfold getAllTokens
      exact hperm.symm.subset hrA
    refine ⟨hrRes, ?_⟩
    intro x hx hcode
    exact List.inj_on_of_nodup_map hnodupRes hx hrRes hcode
  · unfold getAllTokens
    exact List.sorted_insertionSort createdDescOrder _

/-- Witness for C8 at a concrete remote list (codes A, B) and local cache
(codes B, C): no duplicate codes, the remote record for B is returned, and
the result is newest-first. -/
theorem C8_witness :
    (c8online.map TokenInfo.token_code).Nodup ∧
    (((getAllTokens c8online c8locals).map TokenInfo.token_code).Nodup ∧
     (∀ r ∈ c8online, r ∈ getAllTokens c8online c8locals ∧
       ∀ x ∈ getAllTokens c8online c8locals, x.token_code = r.token_code → x = r) ∧
     List.Sorted createdDescOrder (getAllTokens c8online c8locals)) :=
  ⟨by decide, C8_getAllTokens_merge c8online c8locals (by decide)⟩

end Acenexa
